import Mathlib

/-!
Verification of the ChromaDesk headless daily-update pipeline
(`src/chromadesk/main.py`, `main()` with `--headless`).

The pipeline is embedded as a pure function `headlessUpdate` over an
environment `Env` that supplies the configuration store contents and the
outcomes of the collaborator calls (metadata fetch, directory creation,
file-existence test, download, wallpaper apply, state write, history
cleanup, notification).  The function returns a `RunResult` recording the
process exit code, which side-effecting collaborator calls were made, and
the resulting persisted `last_update_date`.

Collaborator modules (`chromadesk.core.config`, `.bing`, `.downloader`,
`.history`, `.wallpaper`) are not part of the sources; their interfaces
are modelled from the spec (sections 4.1-4.4): each returns a success or
error value rather than raising, and `get_bing_filename` is a pure
deterministic derivation from the (date, url) pair.
-/

namespace ChromaDesk

/-- Featured image metadata as returned by `core_bing.fetch_bing_wallpaper_info`:
a dict with keys `date`, `title`, `full_url`; `none` on an absent key
(`dict.get` returns `None`).  Python string truthiness makes an empty
`full_url` falsy, which the embedding reflects via `Option.getD`. -/
structure BingInfo where
  date : String
  title : Option String
  full_url : Option String
  deriving Repr, DecidableEq

/-- The configuration-store fields the headless path reads
(`[Settings] enabled`, `[Settings] region`, `[State] last_update_date`,
`[Settings] keep_history`); `none` models a missing key, resolved through
the fallback values the code passes to the accessors. -/
structure ConfigStore where
  enabled : Option Bool
  region : Option String
  last_update_date : Option String
  keep_history : Option Int
  deriving Repr, DecidableEq

/-- `config.getboolean("Settings", "enabled", fallback=False)`. -/
def ConfigStore.getEnabled (c : ConfigStore) : Bool := c.enabled.getD false

/-- `config.get("Settings", "region", fallback="en-US")`. -/
def ConfigStore.getRegion (c : ConfigStore) : String := c.region.getD "en-US"

/-- `config.get("State", "last_update_date", fallback="")`. -/
def ConfigStore.getLastUpdate (c : ConfigStore) : String :=
  c.last_update_date.getD ""

/-- `config.getint("Settings", "keep_history", fallback=7)`. -/
def ConfigStore.getKeepHistory (c : ConfigStore) : Int := c.keep_history.getD 7

/-- Modelled from the spec: `core_history.get_bing_filename` is not among the
sources.  Section 4.2 specifies `filename_for(date, url)` as a pure,
deterministic derivation from the (date, url) pair performing no I/O, the
same pair always yielding the same filename. -/
def get_bing_filename (d : String) (url : String) : String :=
  "bing_" ++ d ++ "_" ++ url ++ ".jpg"

/-- Environment of one headless invocation: the loaded configuration, the
wall-clock date `date.today().isoformat()`, and the outcomes of each
collaborator call, modelled from the spec as value-returning
(4.1 `fetch -> FeaturedImageInfo | FetchError`, here `Option BingInfo`;
4.2 `ensure_directory`, `materialize`, `prune`; 4.3 `apply`, `notify`;
4.4 `write_last_update_date -> Ok | Error`). -/
structure Env where
  config : ConfigStore
  today : String
  fetch : String → Option BingInfo
  ensureDirOk : Bool
  wallpaperDir : String
  fileExists : String → Bool
  downloadOk : Bool
  applyOk : Bool
  setSettingOk : Bool
  cleanupOk : Bool
  notifyOk : Bool

/-- Observable outcome of one headless run: the exit code of `main()` and,
for each side-effecting collaborator, whether its call was made, plus the
persisted `last_update_date` after the run and the save path handed to the
downloader/applier (when one was computed). -/
structure RunResult where
  exit : Nat
  fetched : Bool
  downloaded : Bool
  applied : Bool
  stateWritten : Bool
  pruned : Bool
  notified : Bool
  last_update_date : Option String
  savePath : Option String
  deriving Repr, DecidableEq

/-- Outcome when `bing_info` is falsy or lacks a truthy `full_url`
(main.py line 227: both cases fall to the same `else`). -/
def fetchFailResult (cfg : ConfigStore) : RunResult :=
  { exit := 1, fetched := true, downloaded := false, applied := false,
    stateWritten := false, pruned := false, notified := false,
    last_update_date := cfg.last_update_date, savePath := none }

/-- The headless update logic of `main()` (main.py lines 130-242).
Mirrors the source control flow: check `enabled`; fetch; validate
`full_url`; compare `last_update_date` with today's wall-clock date;
ensure the wallpaper directory (a failure raises, caught by the outer
handler → failure); reuse an existing file or download; apply; on apply
success write today's date, prune history and notify (notification
failures are swallowed by the inner handler); return 0 on success else 1. -/
def headlessUpdate (env : Env) : RunResult :=
  let cfg := env.config
  if cfg.getEnabled then
    match env.fetch cfg.getRegion with
    | some info =>
      if info.full_url.getD "" ≠ "" then
        let today_str := env.today
        if cfg.getLastUpdate = today_str then
          { exit := 0, fetched := true, downloaded := false, applied := false,
            stateWritten := false, pruned := false, notified := false,
            last_update_date := cfg.last_update_date, savePath := none }
        else
          if env.ensureDirOk then
            let filename := get_bing_filename info.date (info.full_url.getD "")
            let save_path := env.wallpaperDir ++ "/" ++ filename
            let existed := env.fileExists save_path
            let download_ok := existed || env.downloadOk
            if download_ok then
              if env.applyOk then
                { exit := 0, fetched := true, downloaded := !existed,
                  applied := true, stateWritten := true, pruned := true,
                  notified := true,
                  last_update_date :=
                    if env.setSettingOk then some today_str
                    else cfg.last_update_date,
                  savePath := some save_path }
              else
                { exit := 1, fetched := true, downloaded := !existed,
                  applied := true, stateWritten := false, pruned := false,
                  notified := false,
                  last_update_date := cfg.last_update_date,
                  savePath := some save_path }
            else
              { exit := 1, fetched := true, downloaded := true,
                applied := false, stateWritten := false, pruned := false,
                notified := false,
                last_update_date := cfg.last_update_date,
                savePath := some save_path }
          else
            { exit := 1, fetched := true, downloaded := false,
              applied := false, stateWritten := false, pruned := false,
              notified := false,
              last_update_date := cfg.last_update_date, savePath := none }
      else fetchFailResult cfg
    | none => fetchFailResult cfg
  else
    { exit := 0, fetched := false, downloaded := false, applied := false,
      stateWritten := false, pruned := false, notified := false,
      last_update_date := cfg.last_update_date, savePath := none }

/-- Validity test of a fetch outcome as the source checks it
(`if bing_info and bing_info.get("full_url"):`). -/
def fetchValid : Option BingInfo → Bool
  | none => false
  | some info => !(info.full_url.getD "" == "")

/-- Concrete fetch result for witness runs (spec section 8 scenario). -/
def scenarioInfo : BingInfo :=
  { date := "2024-01-01", title := some "T", full_url := some "https://x/img.jpg" }

/-- Concrete environment for witness runs: enabled, valid fetch, stale
`last_update_date`, every collaborator succeeding. -/
def baseEnv : Env :=
  { config := { enabled := some true, region := some "en-US",
                last_update_date := some "", keep_history := some 7 }
  , today := "2024-01-02"
  , fetch := fun _ => some scenarioInfo
  , ensureDirOk := true
  , wallpaperDir := "/wp"
  , fileExists := fun _ => false
  , downloadOk := true
  , applyOk := true
  , setSettingOk := true
  , cleanupOk := true
  , notifyOk := true }

/-- Save path the pipeline computes for a fetched image
(`wallpaper_dir / get_bing_filename(bing_info["date"], bing_info["full_url"])`). -/
def savePathFor (env : Env) (info : BingInfo) : String :=
  env.wallpaperDir ++ "/" ++ get_bing_filename info.date (info.full_url.getD "")

/-- Characterization of the disabled leaf (main.py lines 229-231). -/
theorem headlessUpdate_disabled (env : Env)
    (h : env.config.getEnabled = false) :
    headlessUpdate env =
      { exit := 0, fetched := false, downloaded := false, applied := false,
        stateWritten := false, pruned := false, notified := false,
        last_update_date := env.config.last_update_date, savePath := none } := by
  simp [headlessUpdate, h]

/-- Characterization of the fetch-failure leaf (main.py lines 227-228). -/
theorem headlessUpdate_fetchFail (env : Env)
    (he : env.config.getEnabled = true)
    (hf : fetchValid (env.fetch env.config.getRegion) = false) :
    headlessUpdate env = fetchFailResult env.config := by
  cases henv : env.fetch env.config.getRegion with
  | none => simp [headlessUpdate, he, henv]
  | some info =>
    rw [henv] at hf
    simp only [fetchValid, Bool.not_eq_false'] at hf
    have hu : info.full_url.getD "" = "" := by
      simpa using hf
    simp [headlessUpdate, he, henv, hu]

/-- Characterization of the already-updated-today leaf (main.py lines 157-161). -/
theorem headlessUpdate_alreadyToday (env : Env) (info : BingInfo)
    (he : env.config.getEnabled = true)
    (henv : env.fetch env.config.getRegion = some info)
    (hu : info.full_url.getD "" ≠ "")
    (hl : env.config.getLastUpdate = env.today) :
    headlessUpdate env =
      { exit := 0, fetched := true, downloaded := false, applied := false,
        stateWritten := false, pruned := false, notified := false,
        last_update_date := env.config.last_update_date, savePath := none } := by
  simp [headlessUpdate, he, henv, hu, hl]

/-- Characterization of the wallpaper-directory-creation-failure leaf
(main.py lines 167-170: the raise is caught by the outer handler). -/
theorem headlessUpdate_dirFail (env : Env) (info : BingInfo)
    (he : env.config.getEnabled = true)
    (henv : env.fetch env.config.getRegion = some info)
    (hu : info.full_url.getD "" ≠ "")
    (hl : env.config.getLastUpdate ≠ env.today)
    (hd : env.ensureDirOk = false) :
    headlessUpdate env =
      { exit := 1, fetched := true, downloaded := false, applied := false,
        stateWritten := false, pruned := false, notified := false,
        last_update_date := env.config.last_update_date, savePath := none } := by
  simp [headlessUpdate, he, henv, hu, hl, hd]

/-- Characterization of the download-failure leaf (main.py lines 225-226):
the file was absent, the download call was made and failed. -/
theorem headlessUpdate_downloadFail (env : Env) (info : BingInfo)
    (he : env.config.getEnabled = true)
    (henv : env.fetch env.config.getRegion = some info)
    (hu : info.full_url.getD "" ≠ "")
    (hl : env.config.getLastUpdate ≠ env.today)
    (hd : env.ensureDirOk = true)
    (hx : env.fileExists (savePathFor env info) = false)
    (hdl : env.downloadOk = false) :
    headlessUpdate env =
      { exit := 1, fetched := true, downloaded := true, applied := false,
        stateWritten := false, pruned := false, notified := false,
        last_update_date := env.config.last_update_date,
        savePath := some (savePathFor env info) } := by
  have hx' : env.fileExists
      (env.wallpaperDir ++ "/" ++ get_bing_filename info.date (info.full_url.getD "")) = false := hx
  simp [headlessUpdate, savePathFor, he, henv, hu, hl, hd, hx', hdl]

/-- Characterization of the apply-failure leaf (main.py lines 223-224):
the download step succeeded (existing file or successful download), the
apply call was made and failed, and nothing further runs. -/
theorem headlessUpdate_applyFail (env : Env) (info : BingInfo)
    (he : env.config.getEnabled = true)
    (henv : env.fetch env.config.getRegion = some info)
    (hu : info.full_url.getD "" ≠ "")
    (hl : env.config.getLastUpdate ≠ env.today)
    (hd : env.ensureDirOk = true)
    (hok : (env.fileExists (savePathFor env info) || env.downloadOk) = true)
    (ha : env.applyOk = false) :
    headlessUpdate env =
      { exit := 1, fetched := true,
        downloaded := !env.fileExists (savePathFor env info), applied := true,
        stateWritten := false, pruned := false, notified := false,
        last_update_date := env.config.last_update_date,
        savePath := some (savePathFor env info) } := by
  have hok' : (env.fileExists
      (env.wallpaperDir ++ "/" ++ get_bing_filename info.date (info.full_url.getD "")) ||
      env.downloadOk) = true := hok
  simp [headlessUpdate, savePathFor, he, henv, hu, hl, hd, hok', ha]

/-- Characterization of the full-success leaf (main.py lines 199-222):
download step succeeded, apply succeeded, the state write and the prune
and notification calls are all made, and the run exits 0. -/
theorem headlessUpdate_success (env : Env) (info : BingInfo)
    (he : env.config.getEnabled = true)
    (henv : env.fetch env.config.getRegion = some info)
    (hu : info.full_url.getD "" ≠ "")
    (hl : env.config.getLastUpdate ≠ env.today)
    (hd : env.ensureDirOk = true)
    (hok : (env.fileExists (savePathFor env info) || env.downloadOk) = true)
    (ha : env.applyOk = true) :
    headlessUpdate env =
      { exit := 0, fetched := true,
        downloaded := !env.fileExists (savePathFor env info), applied := true,
        stateWritten := true, pruned := true, notified := true,
        last_update_date :=
          if env.setSettingOk then some env.today
          else env.config.last_update_date,
        savePath := some (savePathFor env info) } := by
  have hok' : (env.fileExists
      (env.wallpaperDir ++ "/" ++ get_bing_filename info.date (info.full_url.getD "")) ||
      env.downloadOk) = true := hok
  simp [headlessUpdate, savePathFor, he, henv, hu, hl, hd, hok', ha]

/-- C3: with `enabled=false` the run returns success and makes no fetch,
download, apply, state-write or prune call, leaving `last_update_date`
unchanged (main.py lines 136-137, 229-231). -/
theorem disabled_short_circuit (env : Env)
    (h : env.config.getEnabled = false) :
    headlessUpdate env =
      { exit := 0, fetched := false, downloaded := false, applied := false,
        stateWritten := false, pruned := false, notified := false,
        last_update_date := env.config.last_update_date, savePath := none } := by
  simp [headlessUpdate, h]

/-- Witness for C3 at a concrete disabled environment. -/
theorem disabled_short_circuit_witness :
    headlessUpdate { baseEnv with config := { baseEnv.config with enabled := some false } } =
      { exit := 0, fetched := false, downloaded := false, applied := false,
        stateWritten := false, pruned := false, notified := false,
        last_update_date := some "", savePath := none } :=
  disabled_short_circuit
    { baseEnv with config := { baseEnv.config with enabled := some false } }
    (by decide)

/-- C1: when the wallpaper applier fails, no state write and no prune call
happen, `last_update_date` is unchanged, and whenever the apply call was
actually made the run exits with failure (main.py lines 197-226). -/
theorem apply_failure_no_state_write (env : Env)
    (h : env.applyOk = false) :
    (headlessUpdate env).stateWritten = false ∧
    (headlessUpdate env).pruned = false ∧
    (headlessUpdate env).last_update_date = env.config.last_update_date ∧
    ((headlessUpdate env).applied = true → (headlessUpdate env).exit = 1) := by
  by_cases he : env.config.getEnabled = true
  · cases henv : env.fetch env.config.getRegion with
    | none =>
      rw [headlessUpdate_fetchFail env he (by simp [fetchValid, henv])]
      simp [fetchFailResult]
    | some info =>
      by_cases hu : info.full_url.getD "" = ""
      · rw [headlessUpdate_fetchFail env he (by simp [fetchValid, henv, hu])]
        simp [fetchFailResult]
      · by_cases hl : env.config.getLastUpdate = env.today
        · rw [headlessUpdate_alreadyToday env info he henv hu hl]
          simp
        · by_cases hd : env.ensureDirOk = true
          · by_cases hok :
              (env.fileExists (savePathFor env info) || env.downloadOk) = true
            · rw [headlessUpdate_applyFail env info he henv hu hl hd hok h]
              simp
            · have hok' : env.fileExists (savePathFor env info) = false ∧
                  env.downloadOk = false := by
                simpa [Bool.or_eq_true, not_or] using hok
              rw [headlessUpdate_downloadFail env info he henv hu hl hd
                hok'.1 hok'.2]
              simp
          · have hd' : env.ensureDirOk = false := by simpa using hd
            rw [headlessUpdate_dirFail env info he henv hu hl hd']
            simp
  · have he' : env.config.getEnabled = false := by simpa using he
    rw [headlessUpdate_disabled env he']
    simp

/-- Witness for C1: in the base environment with a failing applier the run
writes no state, prunes nothing and exits 1. -/
theorem apply_failure_no_state_write_witness :
    (headlessUpdate { baseEnv with applyOk := false }).stateWritten = false ∧
    (headlessUpdate { baseEnv with applyOk := false }).pruned = false ∧
    (headlessUpdate { baseEnv with applyOk := false }).last_update_date = some "" ∧
    ((headlessUpdate { baseEnv with applyOk := false }).applied = true →
      (headlessUpdate { baseEnv with applyOk := false }).exit = 1) :=
  apply_failure_no_state_write { baseEnv with applyOk := false } rfl

/-- C4: on an enabled run, a failed fetch and a fetch result lacking a
truthy `full_url` produce the identical outcome `fetchFailResult`: exit
code 1, no download, no apply, no state write, no prune,
`last_update_date` untouched (main.py lines 147-149, 227-228). -/
theorem fetch_failure_aborts (env : Env)
    (henabled : env.config.getEnabled = true)
    (hfail : fetchValid (env.fetch env.config.getRegion) = false) :
    headlessUpdate env = fetchFailResult env.config ∧
    (headlessUpdate env).exit = 1 ∧
    (headlessUpdate env).downloaded = false ∧
    (headlessUpdate env).applied = false ∧
    (headlessUpdate env).stateWritten = false ∧
    (headlessUpdate env).pruned = false ∧
    (headlessUpdate env).last_update_date = env.config.last_update_date := by
  have hmain : headlessUpdate env = fetchFailResult env.config :=
    headlessUpdate_fetchFail env henabled hfail
  refine ⟨hmain, ?_, ?_, ?_, ?_, ?_, ?_⟩ <;> rw [hmain] <;> rfl

/-- Witness for C4: concrete enabled environment whose fetch returns a
result with an empty `full_url`. -/
theorem fetch_failure_aborts_witness :
    headlessUpdate { baseEnv with fetch := fun _ => some { scenarioInfo with full_url := none } } =
      fetchFailResult baseEnv.config ∧
    (headlessUpdate { baseEnv with fetch := fun _ => some { scenarioInfo with full_url := none } }).exit = 1 ∧
    (headlessUpdate { baseEnv with fetch := fun _ => some { scenarioInfo with full_url := none } }).downloaded = false ∧
    (headlessUpdate { baseEnv with fetch := fun _ => some { scenarioInfo with full_url := none } }).applied = false ∧
    (headlessUpdate { baseEnv with fetch := fun _ => some { scenarioInfo with full_url := none } }).stateWritten = false ∧
    (headlessUpdate { baseEnv with fetch := fun _ => some { scenarioInfo with full_url := none } }).pruned = false ∧
    (headlessUpdate { baseEnv with fetch := fun _ => some { scenarioInfo with full_url := none } }).last_update_date = some "" :=
  fetch_failure_aborts
    { baseEnv with fetch := fun _ => some { scenarioInfo with full_url := none } }
    (by decide) (by decide)

/-- C5: when a file is already present at the path derived from the
fetched (date, full_url) pair, the run makes no download call, proceeds
with that path, and the apply call is made (main.py lines 178-189). -/
theorem existing_file_skips_download (env : Env) (info : BingInfo)
    (he : env.config.getEnabled = true)
    (henv : env.fetch env.config.getRegion = some info)
    (hu : info.full_url.getD "" ≠ "")
    (hl : env.config.getLastUpdate ≠ env.today)
    (hd : env.ensureDirOk = true)
    (hexists : env.fileExists (savePathFor env info) = true) :
    (headlessUpdate env).downloaded = false ∧
    (headlessUpdate env).savePath = some (savePathFor env info) ∧
    (headlessUpdate env).applied = true := by
  by_cases ha : env.applyOk = true
  · rw [headlessUpdate_success env info he henv hu hl hd (by simp [hexists]) ha]
    simp [hexists]
  · have ha' : env.applyOk = false := by simpa using ha
    rw [headlessUpdate_applyFail env info he henv hu hl hd (by simp [hexists]) ha']
    simp [hexists]

/-- Witness for C5: base environment whose file-existence test is true. -/
theorem existing_file_skips_download_witness :
    (headlessUpdate { baseEnv with fileExists := fun _ => true }).downloaded = false ∧
    (headlessUpdate { baseEnv with fileExists := fun _ => true }).savePath =
      some (savePathFor { baseEnv with fileExists := fun _ => true } scenarioInfo) ∧
    (headlessUpdate { baseEnv with fileExists := fun _ => true }).applied = true :=
  existing_file_skips_download { baseEnv with fileExists := fun _ => true }
    scenarioInfo (by decide) rfl (by decide) (by decide) rfl rfl

/-- C6: the freshness key is the wall-clock date, not the image's reported
date: on a full success the recorded `last_update_date` is today's
wall-clock date even when `info.date` differs from it, while the save path
is derived from `info.date`; and a run whose stored date equals today's
wall-clock date short-circuits with success and no download, again
irrespective of `info.date` (main.py lines 153-157, 173-175, 202-204). -/
theorem freshness_uses_wallclock (env : Env) (info : BingInfo)
    (he : env.config.getEnabled = true)
    (henv : env.fetch env.config.getRegion = some info)
    (hu : info.full_url.getD "" ≠ "")
    (hdate : info.date ≠ env.today)
    (hl : env.config.getLastUpdate ≠ env.today)
    (hd : env.ensureDirOk = true)
    (hdl : env.downloadOk = true)
    (ha : env.applyOk = true)
    (hset : env.setSettingOk = true) :
    (headlessUpdate env).last_update_date = some env.today ∧
    (headlessUpdate env).savePath =
      some (env.wallpaperDir ++ "/" ++ get_bing_filename info.date (info.full_url.getD "")) ∧
    (headlessUpdate { env with config :=
      { env.config with last_update_date := some env.today } }).exit = 0 ∧
    (headlessUpdate { env with config :=
      { env.config with last_update_date := some env.today } }).downloaded = false := by
  have hrun := headlessUpdate_success env info he henv hu hl hd (by simp [hdl]) ha
  refine ⟨?_, ?_, ?_, ?_⟩
  · rw [hrun]; simp [hset]
  · rw [hrun]; simp [savePathFor]
  all_goals {
    have he2 : ({ env with config :=
        { env.config with last_update_date := some env.today } } : Env).config.getEnabled = true := he
    have henv2 : ({ env with config :=
        { env.config with last_update_date := some env.today } } : Env).fetch
        ({ env with config :=
        { env.config with last_update_date := some env.today } } : Env).config.getRegion = some info := henv
    have hl2 : ({ env with config :=
        { env.config with last_update_date := some env.today } } : Env).config.getLastUpdate =
        ({ env with config :=
        { env.config with last_update_date := some env.today } } : Env).today := by
      simp [ConfigStore.getLastUpdate]
    rw [headlessUpdate_alreadyToday _ info he2 henv2 hu hl2]
  }

/-- Witness for C6 at the base environment, whose image date 2024-01-01
differs from the wall-clock date 2024-01-02. -/
theorem freshness_uses_wallclock_witness :
    (headlessUpdate baseEnv).last_update_date = some baseEnv.today ∧
    (headlessUpdate baseEnv).savePath =
      some (baseEnv.wallpaperDir ++ "/" ++
        get_bing_filename scenarioInfo.date (scenarioInfo.full_url.getD "")) ∧
    (headlessUpdate { baseEnv with config :=
      { baseEnv.config with last_update_date := some baseEnv.today } }).exit = 0 ∧
    (headlessUpdate { baseEnv with config :=
      { baseEnv.config with last_update_date := some baseEnv.today } }).downloaded = false :=
  freshness_uses_wallclock baseEnv scenarioInfo (by decide) rfl (by decide)
    (by decide) (by decide) rfl rfl rfl rfl

/-- C7: a failing `last_update_date` write after a successful apply leaves
the stored date unchanged but the run still exits 0: the write's outcome
never flips the verdict (main.py lines 202-204 ignore the return value of
`set_setting`; spec 4.4 models the write as returning Ok or Error). -/
theorem state_write_failure_still_success (env : Env) (info : BingInfo)
    (he : env.config.getEnabled = true)
    (henv : env.fetch env.config.getRegion = some info)
    (hu : info.full_url.getD "" ≠ "")
    (hl : env.config.getLastUpdate ≠ env.today)
    (hd : env.ensureDirOk = true)
    (hdl : env.downloadOk = true)
    (ha : env.applyOk = true)
    (hset : env.setSettingOk = false) :
    (headlessUpdate env).exit = 0 ∧
    (headlessUpdate env).stateWritten = true ∧
    (headlessUpdate env).last_update_date = env.config.last_update_date := by
  rw [headlessUpdate_success env info he henv hu hl hd (by simp [hdl]) ha]
  simp [hset]

/-- Witness for C7: base environment with a failing state write. -/
theorem state_write_failure_still_success_witness :
    (headlessUpdate { baseEnv with setSettingOk := false }).exit = 0 ∧
    (headlessUpdate { baseEnv with setSettingOk := false }).stateWritten = true ∧
    (headlessUpdate { baseEnv with setSettingOk := false }).last_update_date = some "" :=
  state_write_failure_still_success { baseEnv with setSettingOk := false }
    scenarioInfo (by decide) rfl (by decide) (by decide) rfl rfl rfl rfl

/-- C2: after an enabled run with a valid fetch has recorded today's date
in `last_update_date`, a second run against the recorded state and the
same metadata short-circuits at the freshness check: it returns success
and makes no download, apply, or state-write call (so across both runs at
most one download and one apply happen) and no prune call
(main.py lines 153-161). -/
theorem second_run_short_circuits (env : Env)
    (he : env.config.getEnabled = true)
    (hf : fetchValid (env.fetch env.config.getRegion) = true)
    (hrec : (headlessUpdate env).last_update_date = some env.today) :
    (headlessUpdate { env with config := { env.config with
      last_update_date := (headlessUpdate env).last_update_date } }).exit = 0 ∧
    (headlessUpdate { env with config := { env.config with
      last_update_date := (headlessUpdate env).last_update_date } }).fetched = true ∧
    (headlessUpdate { env with config := { env.config with
      last_update_date := (headlessUpdate env).last_update_date } }).downloaded = false ∧
    (headlessUpdate { env with config := { env.config with
      last_update_date := (headlessUpdate env).last_update_date } }).applied = false ∧
    (headlessUpdate { env with config := { env.config with
      last_update_date := (headlessUpdate env).last_update_date } }).stateWritten = false ∧
    (headlessUpdate { env with config := { env.config with
      last_update_date := (headlessUpdate env).last_update_date } }).pruned = false := by
  obtain ⟨info, henv, hu⟩ : ∃ info, env.fetch env.config.getRegion = some info ∧
      info.full_url.getD "" ≠ "" := by
    cases henv : env.fetch env.config.getRegion with
    | none => rw [henv] at hf; simp [fetchValid] at hf
    | some i =>
      rw [henv] at hf
      exact ⟨i, rfl, by simpa [fetchValid] using hf⟩
  rw [hrec]
  have he2 : ({ env with config := { env.config with
      last_update_date := some env.today } } : Env).config.getEnabled = true := he
  have henv2 : ({ env with config := { env.config with
      last_update_date := some env.today } } : Env).fetch
      ({ env with config := { env.config with
      last_update_date := some env.today } } : Env).config.getRegion = some info := henv
  have hl2 : ({ env with config := { env.config with
      last_update_date := some env.today } } : Env).config.getLastUpdate =
      ({ env with config := { env.config with
      last_update_date := some env.today } } : Env).today := by
    simp [ConfigStore.getLastUpdate]
  rw [headlessUpdate_alreadyToday _ info he2 henv2 hu hl2]
  simp

/-- Witness for C2: the base environment's first run records today's date;
the second run against the recorded state is a success no-op. -/
theorem second_run_short_circuits_witness :
    (headlessUpdate { baseEnv with config := { baseEnv.config with
      last_update_date := (headlessUpdate baseEnv).last_update_date } }).exit = 0 ∧
    (headlessUpdate { baseEnv with config := { baseEnv.config with
      last_update_date := (headlessUpdate baseEnv).last_update_date } }).fetched = true ∧
    (headlessUpdate { baseEnv with config := { baseEnv.config with
      last_update_date := (headlessUpdate baseEnv).last_update_date } }).downloaded = false ∧
    (headlessUpdate { baseEnv with config := { baseEnv.config with
      last_update_date := (headlessUpdate baseEnv).last_update_date } }).applied = false ∧
    (headlessUpdate { baseEnv with config := { baseEnv.config with
      last_update_date := (headlessUpdate baseEnv).last_update_date } }).stateWritten = false ∧
    (headlessUpdate { baseEnv with config := { baseEnv.config with
      last_update_date := (headlessUpdate baseEnv).last_update_date } }).pruned = false :=
  second_run_short_circuits baseEnv (by decide) (by decide) (by decide)

/-- C8: after a successful apply the prune call is always made, and the
cleanup outcome never changes the run's result: the run exits 0 whatever
`cleanup_wallpaper_history` reports (main.py lines 205-222 ignore its
return value; spec 4.2 models prune as returning a count or an IoError). -/
theorem prune_attempted_and_nonfatal (env : Env) (info : BingInfo)
    (he : env.config.getEnabled = true)
    (henv : env.fetch env.config.getRegion = some info)
    (hu : info.full_url.getD "" ≠ "")
    (hl : env.config.getLastUpdate ≠ env.today)
    (hd : env.ensureDirOk = true)
    (hok : (env.fileExists (savePathFor env info) || env.downloadOk) = true)
    (ha : env.applyOk = true) :
    (headlessUpdate env).pruned = true ∧
    (headlessUpdate env).exit = 0 ∧
    headlessUpdate { env with cleanupOk := false } = headlessUpdate env ∧
    headlessUpdate { env with cleanupOk := true } = headlessUpdate env := by
  refine ⟨?_, ?_, rfl, rfl⟩ <;>
    rw [headlessUpdate_success env info he henv hu hl hd hok ha]

/-- Witness for C8: base environment; the result is identical under a
failing cleanup and the run still prunes and exits 0. -/
theorem prune_attempted_and_nonfatal_witness :
    (headlessUpdate baseEnv).pruned = true ∧
    (headlessUpdate baseEnv).exit = 0 ∧
    headlessUpdate { baseEnv with cleanupOk := false } = headlessUpdate baseEnv ∧
    headlessUpdate { baseEnv with cleanupOk := true } = headlessUpdate baseEnv :=
  prune_attempted_and_nonfatal baseEnv scenarioInfo (by decide) rfl (by decide)
    (by decide) rfl (by decide) rfl

/-- C9: on every run in which the apply call succeeds, the notification
call is made, the run exits 0, and the notification outcome does not
change the result: the inner handler of main.py lines 211-220 swallows a
notification failure, so the run's verdict is independent of it. -/
theorem notification_failure_swallowed (env : Env) (info : BingInfo)
    (he : env.config.getEnabled = true)
    (henv : env.fetch env.config.getRegion = some info)
    (hu : info.full_url.getD "" ≠ "")
    (hl : env.config.getLastUpdate ≠ env.today)
    (hd : env.ensureDirOk = true)
    (hok : (env.fileExists (savePathFor env info) || env.downloadOk) = true)
    (ha : env.applyOk = true) :
    (headlessUpdate env).exit = 0 ∧
    (headlessUpdate env).notified = true ∧
    headlessUpdate { env with notifyOk := false } = headlessUpdate env ∧
    headlessUpdate { env with notifyOk := true } = headlessUpdate env := by
  refine ⟨?_, ?_, rfl, rfl⟩ <;>
    rw [headlessUpdate_success env info he henv hu hl hd hok ha]

/-- Witness for C9: base environment; the result is identical under a
failing notification and the run still exits 0. -/
theorem notification_failure_swallowed_witness :
    (headlessUpdate baseEnv).exit = 0 ∧
    (headlessUpdate baseEnv).notified = true ∧
    headlessUpdate { baseEnv with notifyOk := false } = headlessUpdate baseEnv ∧
    headlessUpdate { baseEnv with notifyOk := true } = headlessUpdate baseEnv :=
  notification_failure_swallowed baseEnv scenarioInfo (by decide) rfl (by decide)
    (by decide) rfl (by decide) rfl

/-- C10: on every enabled run the fetch call is made before the freshness
check, and when the stored date already equals today but the fetch is
invalid the run exits 1 rather than taking the already-updated success
no-op (main.py line 145 precedes line 153; lines 227-242). -/
theorem fetch_precedes_freshness (env : Env)
    (he : env.config.getEnabled = true) :
    (headlessUpdate env).fetched = true ∧
    (env.config.getLastUpdate = env.today →
      fetchValid (env.fetch env.config.getRegion) = false →
      (headlessUpdate env).exit = 1) := by
  constructor
  · cases henv : env.fetch env.config.getRegion with
    | none =>
      rw [headlessUpdate_fetchFail env he (by simp [fetchValid, henv])]; rfl
    | some info =>
      by_cases hu : info.full_url.getD "" = ""
      · rw [headlessUpdate_fetchFail env he (by simp [fetchValid, henv, hu])]; rfl
      · by_cases hl : env.config.getLastUpdate = env.today
        · rw [headlessUpdate_alreadyToday env info he henv hu hl]
        · by_cases hd : env.ensureDirOk = true
          · by_cases hok :
              (env.fileExists (savePathFor env info) || env.downloadOk) = true
            · by_cases ha : env.applyOk = true
              · rw [headlessUpdate_success env info he henv hu hl hd hok ha]
              · have ha' : env.applyOk = false := by simpa using ha
                rw [headlessUpdate_applyFail env info he henv hu hl hd hok ha']
            · have hok' : env.fileExists (savePathFor env info) = false ∧
                  env.downloadOk = false := by
                simpa [Bool.or_eq_true, not_or] using hok
              rw [headlessUpdate_downloadFail env info he henv hu hl hd
                hok'.1 hok'.2]
          · have hd' : env.ensureDirOk = false := by simpa using hd
            rw [headlessUpdate_dirFail env info he henv hu hl hd']
  · intro _ hf
    rw [headlessUpdate_fetchFail env he hf]; rfl

/-- Witness for C10: enabled environment already updated today whose fetch
returns a result lacking `full_url`; the run still fetches and exits 1. -/
theorem fetch_precedes_freshness_witness :
    (headlessUpdate { baseEnv with
      config := { baseEnv.config with last_update_date := some "2024-01-02" },
      fetch := fun _ => some { scenarioInfo with full_url := none } }).fetched = true ∧
    (({ baseEnv with
      config := { baseEnv.config with last_update_date := some "2024-01-02" },
      fetch := fun _ => some { scenarioInfo with full_url := none } } : Env).config.getLastUpdate =
        ({ baseEnv with
      config := { baseEnv.config with last_update_date := some "2024-01-02" },
      fetch := fun _ => some { scenarioInfo with full_url := none } } : Env).today →
      fetchValid (({ baseEnv with
      config := { baseEnv.config with last_update_date := some "2024-01-02" },
      fetch := fun _ => some { scenarioInfo with full_url := none } } : Env).fetch
        ({ baseEnv with
      config := { baseEnv.config with last_update_date := some "2024-01-02" },
      fetch := fun _ => some { scenarioInfo with full_url := none } } : Env).config.getRegion) = false →
      (headlessUpdate { baseEnv with
      config := { baseEnv.config with last_update_date := some "2024-01-02" },
      fetch := fun _ => some { scenarioInfo with full_url := none } }).exit = 1) :=
  fetch_precedes_freshness { baseEnv with
      config := { baseEnv.config with last_update_date := some "2024-01-02" },
      fetch := fun _ => some { scenarioInfo with full_url := none } } (by decide)

end ChromaDesk
